import Mathlib

/-!
Verification of the status/metrics collector (`status.go`).

The Go file defines a `StatusCollector` whose goroutine multiplexes a
capacity-5 input channel of `statusCollectorMessage`s and a 5-second ticker.
`handleMessage` dispatches on the message type, incrementing counters and
pushing one labeled increment to an external Prometheus-style counter family;
`Collect` resamples the four gauges; `ToJSON` marshals the `info` struct.

We embed the state, the message protocol, the handler, the gauge resampler
and the serializer as executable Lean definitions, mirroring the Go source
line by line, and prove the specified properties about them.
-/

/-! ## Message protocol (src/status.go lines 9-25)

The five `iota` constants and the message struct. `MessageType` is a Go
`uint`; we keep it as `Nat` so that messages outside the five defined types
(claim C10) are representable, exactly as in Go. -/

def StatusTypeCacheHit : Nat := 0

def StatusTypeCacheMiss : Nat := 1

def StatusTypeRequested : Nat := 2

def StatusTypeAPIRequested : Nat := 3

def StatusTypeErrored : Nat := 4

structure statusCollectorMessage where
  MessageType : Nat
  StatusType : String
deriving DecidableEq, Repr

/-! ## Go map model

The three count maps are `map[string]uint` in Go, used only through
`m[k]` reads, the `_, exists := m[k]` presence test, `m[k]++` and
`m[k] = 1`. We model them as association lists with those four
operations. `goMapRead` is the Go indexed read, which yields the zero
value 0 for an absent key. Values are Go `uint`s: every increment the
source performs (`m[k]++`, `x++`) wraps modulo the word size. -/

/-- Go unsigned arithmetic wraps: `uint`/`uint64` are 64-bit words on the
platforms `imgd` targets, so each counter increment in the source is taken
modulo `2^64`. -/
def uintMod : Nat := 2 ^ 64

abbrev GoCountMap := List (String × Nat)

def goMapGet : GoCountMap → String → Option Nat
  | [], _ => none
  | (k', v) :: rest, k => if k' = k then some v else goMapGet rest k

def goMapSet : GoCountMap → String → Nat → GoCountMap
  | [], k, v => [(k, v)]
  | (k', v') :: rest, k, v =>
      if k' = k then (k, v) :: rest else (k', v') :: goMapSet rest k v

def goMapRead (m : GoCountMap) (k : String) : Nat :=
  (goMapGet m k).getD 0

/-- The `if _, exists := m[k] { m[k]++ } else { m[k] = 1 }` pattern used by
the `StatusTypeErrored` / `StatusTypeRequested` / `StatusTypeAPIRequested`
cases of `handleMessage` (src/status.go lines 93-97, 101-105, 109-113). -/
def bumpBucket (m : GoCountMap) (k : String) : GoCountMap :=
  match goMapGet m k with
  | some v => goMapSet m k ((v + 1) % uintMod)
  | none => goMapSet m k 1

/-! ## Aggregate state (src/status.go lines 27-54) -/

structure StatusInfo where
  ImgdMem : Nat
  Uptime : Int
  Errored : GoCountMap
  Requested : GoCountMap
  APIRequested : GoCountMap
  CacheHits : Nat
  CacheMisses : Nat
  CacheSize : Nat
  CacheMem : Nat
deriving DecidableEq, Repr

structure StatusCollector where
  info : StatusInfo
  StartedAt : Int
deriving DecidableEq, Repr

/-- `MakeStatsCollector` (src/status.go lines 56-79): zero-valued struct,
`StartedAt` set from the clock, the three maps initialized empty. The
channel and goroutine are modelled separately (queue + step functions). -/
def MakeStatsCollector (startedAt : Int) : StatusCollector :=
  { info := { ImgdMem := 0, Uptime := 0, Errored := [], Requested := [],
              APIRequested := [], CacheHits := 0, CacheMisses := 0,
              CacheSize := 0, CacheMem := 0 },
    StartedAt := startedAt }

/-! ## External metrics registry

`cacheCounter`, `errorCounter`, `requestCounter` and `apiCounter` are
Prometheus counter vectors defined outside this file; `handleMessage` calls
`family.WithLabelValues(label).Inc()` on them. We record each such call as
a `(family, label)` pair in the handler's output. -/

inductive CounterFamily where
  | cacheCounter
  | errorCounter
  | requestCounter
  | apiCounter
deriving DecidableEq, Repr

/-- `handleMessage` (src/status.go lines 82-115): the switch over
`msg.MessageType`, in source order (CacheHit, CacheMiss, Errored,
Requested, APIRequested, no default case). Returns the updated info
struct together with the list of registry increments pushed. -/
def handleMessage (info : StatusInfo) (msg : statusCollectorMessage) :
    StatusInfo × List (CounterFamily × String) :=
  if msg.MessageType = StatusTypeCacheHit then
    ({ info with CacheHits := (info.CacheHits + 1) % uintMod },
     [(CounterFamily.cacheCounter, "hit")])
  else if msg.MessageType = StatusTypeCacheMiss then
    ({ info with CacheMisses := (info.CacheMisses + 1) % uintMod },
     [(CounterFamily.cacheCounter, "miss")])
  else if msg.MessageType = StatusTypeErrored then
    ({ info with Errored := bumpBucket info.Errored msg.StatusType },
     [(CounterFamily.errorCounter, msg.StatusType)])
  else if msg.MessageType = StatusTypeRequested then
    ({ info with Requested := bumpBucket info.Requested msg.StatusType },
     [(CounterFamily.requestCounter, msg.StatusType)])
  else if msg.MessageType = StatusTypeAPIRequested then
    ({ info with APIRequested := bumpBucket info.APIRequested msg.StatusType },
     [(CounterFamily.apiCounter, msg.StatusType)])
  else
    (info, [])

/-- Draining: the goroutine's select loop processing a queue of pending
messages one at a time, state only (src/status.go lines 68-75). -/
def drain (info : StatusInfo) (msgs : List statusCollectorMessage) : StatusInfo :=
  msgs.foldl (fun i m => (handleMessage i m).1) info

/-! ## Gauge resampling (src/status.go lines 124-132)

`Collect` reads the runtime memory statistics, the clock and the global
`cache` object. Those ambient inputs are one `CollectEnv` value sampled at
the instant of the tick. -/

structure CollectEnv where
  memAlloc : Nat
  now : Int
  cacheSize : Nat
  cacheMem : Nat
deriving DecidableEq, Repr

/-- `Collect`: the four gauge assignments, in source order. -/
def Collect (startedAt : Int) (env : CollectEnv) (info : StatusInfo) : StatusInfo :=
  { info with ImgdMem := env.memAlloc,
              Uptime := env.now - startedAt,
              CacheSize := env.cacheSize,
              CacheMem := env.cacheMem }

/-- The same four assignments as individual store instructions: the list of
states `s.info` passes through while `Collect` runs. Go executes the four
assignments sequentially with no lock, so an unsynchronized concurrent
reader of `s.info` (such as `ToJSON`, src/status.go lines 118-121) can
observe any element of this list. -/
def collectSteps (startedAt : Int) (env : CollectEnv) (info : StatusInfo) :
    List StatusInfo :=
  let s1 := { info with ImgdMem := env.memAlloc }
  let s2 := { s1 with Uptime := env.now - startedAt }
  let s3 := { s2 with CacheSize := env.cacheSize }
  let s4 := { s3 with CacheMem := env.cacheMem }
  [s1, s2, s3, s4]

/-! ## Serialization (src/status.go lines 118-121)

`ToJSON` runs `json.Marshal(s.info)` and discards the error. With no
struct tags, `encoding/json` emits the exported field names in declaration
order; we model the produced document as a JSON value tree. -/

inductive JValue where
  | uint (n : Nat)
  | int (n : Int)
  | obj (fields : List (String × JValue))

def countMapToJSON (m : GoCountMap) : List (String × JValue) :=
  m.map (fun p => (p.1, JValue.uint p.2))

/-- The JSON document `json.Marshal` produces for the `info` struct: the
nine exported fields, in declaration order, under their field names. -/
def infoToJSON (info : StatusInfo) : JValue :=
  JValue.obj
    [("ImgdMem", JValue.uint info.ImgdMem),
     ("Uptime", JValue.int info.Uptime),
     ("Errored", JValue.obj (countMapToJSON info.Errored)),
     ("Requested", JValue.obj (countMapToJSON info.Requested)),
     ("APIRequested", JValue.obj (countMapToJSON info.APIRequested)),
     ("CacheHits", JValue.uint info.CacheHits),
     ("CacheMisses", JValue.uint info.CacheMisses),
     ("CacheSize", JValue.uint info.CacheSize),
     ("CacheMem", JValue.uint info.CacheMem)]

/-- `ToJSON` with the serializer abstracted: `results, _ := marshal(info);
return results`. A failed marshal returns the zero value (`nil` byte
slice, here `[]`) and the error is discarded — exactly the
`results, _ := json.Marshal(s.info)` line of the source. -/
def toJSONWith (marshal : StatusInfo → Except String (List Nat))
    (info : StatusInfo) : List Nat :=
  match marshal info with
  | Except.ok results => results
  | Except.error _ => []

/-! ## Ingestion (src/status.go lines 56-62 and 135-170)

`inputData` is a buffered channel of capacity 5. A send appends to the
buffer when it has room; when the buffer is full the sender blocks (no
value is dropped, no error is returned). We model the buffer as a list and
a send attempt as `Option`: `none` means the sender is not ready and must
wait. Each ingestion method constructs exactly one message. -/

def inputQueueCapacity : Nat := 5

def channelSend (queue : List statusCollectorMessage)
    (m : statusCollectorMessage) : Option (List statusCollectorMessage) :=
  if queue.length < inputQueueCapacity then some (queue ++ [m]) else none

/-- `Errored` (src/status.go lines 135-140). -/
def StatusCollector.Errored (queue : List statusCollectorMessage)
    (errorType : String) : Option (List statusCollectorMessage) :=
  channelSend queue { MessageType := StatusTypeErrored, StatusType := errorType }

/-- `Requested` (src/status.go lines 143-148). -/
def StatusCollector.Requested (queue : List statusCollectorMessage)
    (reqType : String) : Option (List statusCollectorMessage) :=
  channelSend queue { MessageType := StatusTypeRequested, StatusType := reqType }

/-- `APIRequested` (src/status.go lines 151-156). -/
def StatusCollector.APIRequested (queue : List statusCollectorMessage)
    (reqType : String) : Option (List statusCollectorMessage) :=
  channelSend queue { MessageType := StatusTypeAPIRequested, StatusType := reqType }

/-- `HitCache` (src/status.go lines 159-163); `StatusType` is left at its
zero value. -/
def StatusCollector.HitCache (queue : List statusCollectorMessage) :
    Option (List statusCollectorMessage) :=
  channelSend queue { MessageType := StatusTypeCacheHit, StatusType := "" }

/-- `MissCache` (src/status.go lines 166-170). -/
def StatusCollector.MissCache (queue : List statusCollectorMessage) :
    Option (List statusCollectorMessage) :=
  channelSend queue { MessageType := StatusTypeCacheMiss, StatusType := "" }

/-! ## Monotonicity predicates (spec §3 invariant)

`mapMono m m'` says no key of `m` was removed and no value decreased;
`countersMono` extends this to all five counters of the state. -/

def mapMono (m m' : GoCountMap) : Prop :=
  ∀ k v, goMapGet m k = some v → ∃ w, goMapGet m' k = some w ∧ v ≤ w

def countersMono (a b : StatusInfo) : Prop :=
  a.CacheHits ≤ b.CacheHits ∧ a.CacheMisses ≤ b.CacheMisses ∧
  mapMono a.Errored b.Errored ∧ mapMono a.Requested b.Requested ∧
  mapMono a.APIRequested b.APIRequested

/-- All counters strictly below the `uint` maximum `2^64 - 1`: the region
in which a wrapping Go increment is an ordinary increment. -/
abbrev belowUintMax (info : StatusInfo) : Prop :=
  info.CacheHits < uintMod - 1 ∧ info.CacheMisses < uintMod - 1 ∧
  (∀ p ∈ info.Errored, p.2 < uintMod - 1) ∧
  (∀ p ∈ info.Requested, p.2 < uintMod - 1) ∧
  (∀ p ∈ info.APIRequested, p.2 < uintMod - 1)

/-- Scenario A of the spec: 3 cache hits, 1 cache miss, 2 `Requested("skin")`
events, one canonical ordering. -/
def scenarioA : List statusCollectorMessage :=
  [{ MessageType := StatusTypeCacheHit, StatusType := "" },
   { MessageType := StatusTypeCacheHit, StatusType := "" },
   { MessageType := StatusTypeCacheHit, StatusType := "" },
   { MessageType := StatusTypeCacheMiss, StatusType := "" },
   { MessageType := StatusTypeRequested, StatusType := "skin" },
   { MessageType := StatusTypeRequested, StatusType := "skin" }]

/-! ## Map lemmas -/

theorem goMapGet_set_self (m : GoCountMap) (k : String) (v : Nat) :
    goMapGet (goMapSet m k v) k = some v := by
  induction m with
  | nil => simp [goMapSet, goMapGet]
  | cons p rest ih =>
    obtain ⟨k', v'⟩ := p
    by_cases h : k' = k
    · simp [goMapSet, h, goMapGet]
    · simp [goMapSet, h, goMapGet, ih]

theorem goMapGet_set_other (m : GoCountMap) (k j : String) (v : Nat)
    (h : k ≠ j) : goMapGet (goMapSet m k v) j = goMapGet m j := by
  induction m with
  | nil => simp [goMapSet, goMapGet, h]
  | cons p rest ih =>
    obtain ⟨k', v'⟩ := p
    by_cases hk : k' = k
    · subst hk; simp [goMapSet, goMapGet, h]
    · simp [goMapSet, hk, goMapGet, ih]

theorem bumpBucket_read_self (m : GoCountMap) (k : String) :
    goMapRead (bumpBucket m k) k = (goMapRead m k + 1) % uintMod := by
  unfold bumpBucket
  cases h : goMapGet m k with
  | none =>
    simp only [goMapRead, h, goMapGet_set_self, Option.getD_some, Option.getD_none]
    decide
  | some v =>
    simp only [goMapRead, h, goMapGet_set_self, Option.getD_some]

theorem bumpBucket_get_other (m : GoCountMap) (k j : String) (h : k ≠ j) :
    goMapGet (bumpBucket m k) j = goMapGet m j := by
  unfold bumpBucket
  cases hg : goMapGet m k <;> simp [goMapGet_set_other _ _ _ _ h]

theorem bumpBucket_get_absent (m : GoCountMap) (k : String)
    (h : goMapGet m k = none) : goMapGet (bumpBucket m k) k = some 1 := by
  unfold bumpBucket
  rw [h]
  exact goMapGet_set_self m k 1

theorem bumpBucket_mono (m : GoCountMap) (k j : String) (v : Nat)
    (h : goMapGet m j = some v) (hv : v + 1 < uintMod) :
    ∃ w, goMapGet (bumpBucket m k) j = some w ∧ v ≤ w := by
  by_cases hk : k = j
  · subst hk
    unfold bumpBucket
    rw [h]
    refine ⟨(v + 1) % uintMod, goMapGet_set_self m k _, ?_⟩
    rw [Nat.mod_eq_of_lt hv]
    exact Nat.le_succ v
  · rw [bumpBucket_get_other m k j hk]
    exact ⟨v, h, Nat.le_refl v⟩

/-! ## Per-step field lemmas for `handleMessage` -/

theorem handleMessage_CacheHits (info : StatusInfo) (m : statusCollectorMessage) :
    (handleMessage info m).1.CacheHits =
      if m.MessageType = StatusTypeCacheHit then (info.CacheHits + 1) % uintMod
      else info.CacheHits := by
  unfold handleMessage
  split_ifs <;>
    simp_all [StatusTypeCacheHit, StatusTypeCacheMiss, StatusTypeRequested,
      StatusTypeAPIRequested, StatusTypeErrored]

theorem handleMessage_CacheMisses (info : StatusInfo) (m : statusCollectorMessage) :
    (handleMessage info m).1.CacheMisses =
      if m.MessageType = StatusTypeCacheMiss then (info.CacheMisses + 1) % uintMod
      else info.CacheMisses := by
  unfold handleMessage
  split_ifs <;>
    simp_all [StatusTypeCacheHit, StatusTypeCacheMiss, StatusTypeRequested,
      StatusTypeAPIRequested, StatusTypeErrored]

theorem handleMessage_Errored (info : StatusInfo) (m : statusCollectorMessage) :
    (handleMessage info m).1.Errored =
      if m.MessageType = StatusTypeErrored then bumpBucket info.Errored m.StatusType
      else info.Errored := by
  unfold handleMessage
  split_ifs <;>
    simp_all [StatusTypeCacheHit, StatusTypeCacheMiss, StatusTypeRequested,
      StatusTypeAPIRequested, StatusTypeErrored]

theorem handleMessage_Requested (info : StatusInfo) (m : statusCollectorMessage) :
    (handleMessage info m).1.Requested =
      if m.MessageType = StatusTypeRequested then bumpBucket info.Requested m.StatusType
      else info.Requested := by
  unfold handleMessage
  split_ifs <;>
    simp_all [StatusTypeCacheHit, StatusTypeCacheMiss, StatusTypeRequested,
      StatusTypeAPIRequested, StatusTypeErrored]

theorem handleMessage_APIRequested (info : StatusInfo) (m : statusCollectorMessage) :
    (handleMessage info m).1.APIRequested =
      if m.MessageType = StatusTypeAPIRequested then bumpBucket info.APIRequested m.StatusType
      else info.APIRequested := by
  unfold handleMessage
  split_ifs <;>
    simp_all [StatusTypeCacheHit, StatusTypeCacheMiss, StatusTypeRequested,
      StatusTypeAPIRequested, StatusTypeErrored]

/-! ## Drain-level counting lemmas -/

theorem drain_cons (info : StatusInfo) (m : statusCollectorMessage)
    (msgs : List statusCollectorMessage) :
    drain info (m :: msgs) = drain (handleMessage info m).1 msgs := rfl

theorem drain_CacheHits (msgs : List statusCollectorMessage) :
    ∀ info : StatusInfo, info.CacheHits < uintMod →
    (drain info msgs).CacheHits =
      (info.CacheHits +
        msgs.countP (fun m => m.MessageType == StatusTypeCacheHit)) % uintMod := by
  induction msgs with
  | nil =>
    intro info h
    simp [drain, Nat.mod_eq_of_lt h]
  | cons m rest ih =>
    intro info h
    rw [drain_cons]
    by_cases hm : m.MessageType = StatusTypeCacheHit
    · have hcount : List.countP
            (fun x => x.MessageType == StatusTypeCacheHit) (m :: rest)
          = List.countP (fun x => x.MessageType == StatusTypeCacheHit) rest + 1 := by
        simp [List.countP_cons, hm]
      have hstep : (handleMessage info m).1.CacheHits
          = (info.CacheHits + 1) % uintMod := by
        rw [handleMessage_CacheHits, if_pos hm]
      rw [hcount, ih _ (by rw [hstep]; exact Nat.mod_lt _ (by decide)), hstep,
        Nat.mod_add_mod]
      congr 1
      omega
    · have hcount : List.countP
            (fun x => x.MessageType == StatusTypeCacheHit) (m :: rest)
          = List.countP (fun x => x.MessageType == StatusTypeCacheHit) rest := by
        simp [List.countP_cons, hm]
      have hstep : (handleMessage info m).1.CacheHits = info.CacheHits := by
        rw [handleMessage_CacheHits, if_neg hm]
      rw [hcount, ih _ (by rw [hstep]; exact h), hstep]

theorem drain_CacheMisses (msgs : List statusCollectorMessage) :
    ∀ info : StatusInfo, info.CacheMisses < uintMod →
    (drain info msgs).CacheMisses =
      (info.CacheMisses +
        msgs.countP (fun m => m.MessageType == StatusTypeCacheMiss)) % uintMod := by
  induction msgs with
  | nil =>
    intro info h
    simp [drain, Nat.mod_eq_of_lt h]
  | cons m rest ih =>
    intro info h
    rw [drain_cons]
    by_cases hm : m.MessageType = StatusTypeCacheMiss
    · have hcount : List.countP
            (fun x => x.MessageType == StatusTypeCacheMiss) (m :: rest)
          = List.countP (fun x => x.MessageType == StatusTypeCacheMiss) rest + 1 := by
        simp [List.countP_cons, hm]
      have hstep : (handleMessage info m).1.CacheMisses
          = (info.CacheMisses + 1) % uintMod := by
        rw [handleMessage_CacheMisses, if_pos hm]
      rw [hcount, ih _ (by rw [hstep]; exact Nat.mod_lt _ (by decide)), hstep,
        Nat.mod_add_mod]
      congr 1
      omega
    · have hcount : List.countP
            (fun x => x.MessageType == StatusTypeCacheMiss) (m :: rest)
          = List.countP (fun x => x.MessageType == StatusTypeCacheMiss) rest := by
        simp [List.countP_cons, hm]
      have hstep : (handleMessage info m).1.CacheMisses = info.CacheMisses := by
        rw [handleMessage_CacheMisses, if_neg hm]
      rw [hcount, ih _ (by rw [hstep]; exact h), hstep]

theorem drain_Errored_read (msgs : List statusCollectorMessage) :
    ∀ (info : StatusInfo) (k : String), goMapRead info.Errored k < uintMod →
    goMapRead (drain info msgs).Errored k =
      (goMapRead info.Errored k +
        msgs.countP (fun m => m.MessageType == StatusTypeErrored && m.StatusType == k))
        % uintMod := by
  induction msgs with
  | nil =>
    intro info k h
    simp [drain, Nat.mod_eq_of_lt h]
  | cons m rest ih =>
    intro info k h
    rw [drain_cons]
    by_cases hm : m.MessageType = StatusTypeErrored
    · by_cases hk : m.StatusType = k
      · have hcount : List.countP
              (fun x => x.MessageType == StatusTypeErrored && x.StatusType == k)
              (m :: rest)
            = List.countP
              (fun x => x.MessageType == StatusTypeErrored && x.StatusType == k)
              rest + 1 := by
          simp [List.countP_cons, hm, hk]
        have hstep : goMapRead (handleMessage info m).1.Errored k
            = (goMapRead info.Errored k + 1) % uintMod := by
          rw [handleMessage_Errored, if_pos hm, ← hk, bumpBucket_read_self]
        rw [hcount, ih _ k (by rw [hstep]; exact Nat.mod_lt _ (by decide)), hstep,
          Nat.mod_add_mod]
        congr 1
        omega
      · have hcount : List.countP
              (fun x => x.MessageType == StatusTypeErrored && x.StatusType == k)
              (m :: rest)
            = List.countP
              (fun x => x.MessageType == StatusTypeErrored && x.StatusType == k)
              rest := by
          simp [List.countP_cons, hk]
        have hstep : goMapRead (handleMessage info m).1.Errored k
            = goMapRead info.Errored k := by
          rw [handleMessage_Errored, if_pos hm]
          unfold goMapRead
          rw [bumpBucket_get_other _ _ _ hk]
        rw [hcount, ih _ k (by rw [hstep]; exact h), hstep]
    · have hcount : List.countP
            (fun x => x.MessageType == StatusTypeErrored && x.StatusType == k)
            (m :: rest)
          = List.countP
            (fun x => x.MessageType == StatusTypeErrored && x.StatusType == k)
            rest := by
        simp [List.countP_cons, hm]
      have hstep : goMapRead (handleMessage info m).1.Errored k
          = goMapRead info.Errored k := by
        rw [handleMessage_Errored, if_neg hm]
      rw [hcount, ih _ k (by rw [hstep]; exact h), hstep]

theorem drain_Requested_map (msgs : List statusCollectorMessage) :
    ∀ info : StatusInfo,
    (drain info msgs).Requested =
      ((msgs.filter (fun m => m.MessageType == StatusTypeRequested)).map
          statusCollectorMessage.StatusType).foldl bumpBucket info.Requested := by
  induction msgs with
  | nil => intro info; simp [drain]
  | cons m rest ih =>
    intro info
    rw [drain_cons, ih]
    by_cases h : m.MessageType = StatusTypeRequested <;>
      simp [handleMessage_Requested, h, List.filter_cons]

theorem countP_replicate {α : Type} (p : α → Bool) (a : α) (n : Nat) :
    (List.replicate n a).countP p = if p a then n else 0 := by
  induction n with
  | zero => simp
  | succ n ih =>
    rw [List.replicate_succ, List.countP_cons, ih]
    by_cases h : p a <;> simp [h]

theorem perm_pair_eq {α : Type} (l : List α) (a : α) (h : l.Perm [a, a]) :
    l = [a, a] := by
  have hlen : l.length = 2 := by simpa using h.length_eq
  have hmem : ∀ x ∈ l, x = a := by
    intro x hx
    have hx2 : x ∈ [a, a] := h.mem_iff.mp hx
    simpa using hx2
  cases l with
  | nil => simp at hlen
  | cons x t =>
    cases t with
    | nil => simp at hlen
    | cons y t2 =>
      cases t2 with
      | nil =>
        have hx := hmem x (by simp)
        have hy := hmem y (by simp)
        subst hx; subst hy; rfl
      | cons z t3 => simp [List.length] at hlen

/-- C1 (amended): draining `N` `Errored(k)` events into a fresh collector
leaves the Go indexed read `Errored[k]` equal to `N mod 2^64` — the
`map[string]uint` value wraps — which is exactly `N` whenever `N < 2^64`. -/
theorem C1_errored_counter_mod_completeness (k : String) (N : Nat) :
    goMapRead (drain (MakeStatsCollector 0).info
      (List.replicate N { MessageType := StatusTypeErrored, StatusType := k })).Errored k
      = N % uintMod ∧
    (N < uintMod →
      goMapRead (drain (MakeStatsCollector 0).info
        (List.replicate N { MessageType := StatusTypeErrored, StatusType := k })).Errored k
        = N) := by
  have hread : goMapRead (drain (MakeStatsCollector 0).info
      (List.replicate N { MessageType := StatusTypeErrored, StatusType := k })).Errored k
      = N % uintMod := by
    rw [drain_Errored_read _ _ _
      (by simp [MakeStatsCollector, goMapRead, goMapGet]; decide)]
    simp [MakeStatsCollector, goMapRead, goMapGet, countP_replicate]
  exact ⟨hread, fun h => by rw [hread]; exact Nat.mod_eq_of_lt h⟩

theorem C1_errored_counter_mod_completeness_witness :
    goMapRead (drain (MakeStatsCollector 0).info
      (List.replicate 3
        { MessageType := StatusTypeErrored, StatusType := "db" })).Errored "db"
      = 3 :=
  (C1_errored_counter_mod_completeness "db" 3).2 (by decide)

/-- C1 counterexample: the claim as stated fails at `N = 2^64`. The Go
counter is a wrapping `uint`, so after `2^64` drained `Errored("x")` events
the stored value is 0, not `N`. -/
theorem C1_wrap_counterexample :
    goMapRead (drain (MakeStatsCollector 0).info
      (List.replicate (2 ^ 64)
        { MessageType := StatusTypeErrored, StatusType := "x" })).Errored "x"
      ≠ 2 ^ 64 := by
  have hread : goMapRead (drain (MakeStatsCollector 0).info
      (List.replicate (2 ^ 64)
        { MessageType := StatusTypeErrored, StatusType := "x" })).Errored "x" = 0 := by
    rw [drain_Errored_read _ _ _ (by decide), countP_replicate]
    decide
  rw [hread]
  decide

/-- C2: from a fresh collector, draining any interleaving of 3 cache-hit
events, 1 cache-miss event and 2 `Requested("skin")` events yields
`CacheHits = 3`, `CacheMisses = 1` and `Requested = {"skin": 2}` in the
exported state. -/
theorem C2_scenarioA_snapshot (msgs : List statusCollectorMessage)
    (h : msgs.Perm scenarioA) :
    (drain (MakeStatsCollector 0).info msgs).CacheHits = 3 ∧
    (drain (MakeStatsCollector 0).info msgs).CacheMisses = 1 ∧
    (drain (MakeStatsCollector 0).info msgs).Requested = [("skin", 2)] := by
  refine ⟨?_, ?_, ?_⟩
  · rw [drain_CacheHits msgs (MakeStatsCollector 0).info (by decide),
      List.Perm.countP_eq _ h]
    decide
  · rw [drain_CacheMisses msgs (MakeStatsCollector 0).info (by decide),
      List.Perm.countP_eq _ h]
    decide
  · rw [drain_Requested_map]
    have hperm := (h.filter (fun m => m.MessageType == StatusTypeRequested)).map
        statusCollectorMessage.StatusType
    have hconc : (scenarioA.filter (fun m => m.MessageType == StatusTypeRequested)).map
        statusCollectorMessage.StatusType = ["skin", "skin"] := by decide
    rw [hconc] at hperm
    rw [perm_pair_eq _ _ hperm]
    decide

theorem C2_scenarioA_snapshot_witness :
    (drain (MakeStatsCollector 0).info scenarioA).CacheHits = 3 ∧
    (drain (MakeStatsCollector 0).info scenarioA).CacheMisses = 1 ∧
    (drain (MakeStatsCollector 0).info scenarioA).Requested = [("skin", 2)] :=
  C2_scenarioA_snapshot scenarioA (List.Perm.refl scenarioA)

/-- C3: each of the five event types makes `handleMessage` push exactly one
labeled increment to the external registry — family fixed by the event
type, label the category/kind string (`"hit"`/`"miss"` for cache
outcomes) — and get-or-default-then-increment the matching internal
bucket, which is created with value 1 when absent. -/
theorem C3_one_increment_per_event (info : StatusInfo) (s : String) :
    handleMessage info { MessageType := StatusTypeCacheHit, StatusType := s } =
      ({ info with CacheHits := (info.CacheHits + 1) % uintMod },
       [(CounterFamily.cacheCounter, "hit")]) ∧
    handleMessage info { MessageType := StatusTypeCacheMiss, StatusType := s } =
      ({ info with CacheMisses := (info.CacheMisses + 1) % uintMod },
       [(CounterFamily.cacheCounter, "miss")]) ∧
    handleMessage info { MessageType := StatusTypeErrored, StatusType := s } =
      ({ info with Errored := bumpBucket info.Errored s },
       [(CounterFamily.errorCounter, s)]) ∧
    handleMessage info { MessageType := StatusTypeRequested, StatusType := s } =
      ({ info with Requested := bumpBucket info.Requested s },
       [(CounterFamily.requestCounter, s)]) ∧
    handleMessage info { MessageType := StatusTypeAPIRequested, StatusType := s } =
      ({ info with APIRequested := bumpBucket info.APIRequested s },
       [(CounterFamily.apiCounter, s)]) ∧
    (∀ m : GoCountMap,
      goMapRead (bumpBucket m s) s = (goMapRead m s + 1) % uintMod) ∧
    (∀ m : GoCountMap, goMapGet m s = none → goMapGet (bumpBucket m s) s = some 1) := by
  refine ⟨rfl, rfl, rfl, rfl, rfl, ?_, ?_⟩
  · intro m
    exact bumpBucket_read_self m s
  · intro m h
    exact bumpBucket_get_absent m s h

theorem C3_one_increment_per_event_witness :
    goMapRead (bumpBucket [] "db") "db"
      = (goMapRead ([] : GoCountMap) "db" + 1) % uintMod ∧
    goMapGet (bumpBucket [] "db") "db" = some 1 :=
  ⟨(C3_one_increment_per_event (MakeStatsCollector 0).info "db").2.2.2.2.2.1 [],
   (C3_one_increment_per_event (MakeStatsCollector 0).info "db").2.2.2.2.2.2 [] rfl⟩

/-- C4: `Collect` overwrites the four gauges wholesale — `ImgdMem` to the
sampled allocation, `Uptime` to `now − StartedAt`, `CacheSize`/`CacheMem`
to the provider's instantaneous values — so after `T` seconds with no
other activity the reported uptime is exactly `T`. -/
theorem C4_collect_overwrites_gauges (startedAt T : Int) (env : CollectEnv)
    (info : StatusInfo) :
    (Collect startedAt env info).ImgdMem = env.memAlloc ∧
    (Collect startedAt env info).Uptime = env.now - startedAt ∧
    (Collect startedAt env info).CacheSize = env.cacheSize ∧
    (Collect startedAt env info).CacheMem = env.cacheMem ∧
    (env.now = startedAt + T → (Collect startedAt env info).Uptime = T) := by
  refine ⟨rfl, rfl, rfl, rfl, fun h => ?_⟩
  show env.now - startedAt = T
  omega

theorem C4_collect_overwrites_gauges_witness :
    (Collect 10 { memAlloc := 5, now := 17, cacheSize := 2, cacheMem := 3 }
      (MakeStatsCollector 10).info).Uptime = 7 :=
  (C4_collect_overwrites_gauges 10 7
    { memAlloc := 5, now := 17, cacheSize := 2, cacheMem := 3 }
    (MakeStatsCollector 10).info).2.2.2.2 (by decide)

theorem mapMono_refl (m : GoCountMap) : mapMono m m :=
  fun _ v h => ⟨v, h, Nat.le_refl v⟩

theorem goMapGet_mem (m : GoCountMap) (k : String) (v : Nat)
    (h : goMapGet m k = some v) : (k, v) ∈ m := by
  induction m with
  | nil => simp [goMapGet] at h
  | cons p rest ih =>
    obtain ⟨k', v'⟩ := p
    simp only [goMapGet] at h
    by_cases hk : k' = k
    · rw [if_pos hk] at h
      obtain rfl : v' = v := Option.some.inj h
      subst hk
      exact List.mem_cons_self _ _
    · rw [if_neg hk] at h
      exact List.mem_cons_of_mem _ (ih h)

/-- C5 (amended): from any state whose counters all sit below the `uint`
maximum `2^64 - 1`, a single aggregator step — any `handleMessage` and any
`Collect` — never decreases a counter and never removes a map key. At the
maximum, the wrapping Go increment resets the counter to 0 (the
counterexample), so the claim does not hold over every state. -/
theorem C5_counters_monotonic_below_max (info : StatusInfo)
    (msg : statusCollectorMessage) (startedAt : Int) (env : CollectEnv)
    (hb : belowUintMax info) :
    countersMono info (handleMessage info msg).1 ∧
    countersMono info (Collect startedAt env info) := by
  obtain ⟨h1, h2, h3, h4, h5⟩ := hb
  constructor
  · refine ⟨?_, ?_, ?_, ?_, ?_⟩
    · rw [handleMessage_CacheHits]
      split_ifs
      · rw [Nat.mod_eq_of_lt (by omega)]
        omega
      · exact Nat.le_refl _
    · rw [handleMessage_CacheMisses]
      split_ifs
      · rw [Nat.mod_eq_of_lt (by omega)]
        omega
      · exact Nat.le_refl _
    · rw [handleMessage_Errored]
      split_ifs
      · intro j v hv
        refine bumpBucket_mono _ _ _ _ hv ?_
        have hb3 := h3 _ (goMapGet_mem _ _ _ hv)
        omega
      · exact mapMono_refl _
    · rw [handleMessage_Requested]
      split_ifs
      · intro j v hv
        refine bumpBucket_mono _ _ _ _ hv ?_
        have hb4 := h4 _ (goMapGet_mem _ _ _ hv)
        omega
      · exact mapMono_refl _
    · rw [handleMessage_APIRequested]
      split_ifs
      · intro j v hv
        refine bumpBucket_mono _ _ _ _ hv ?_
        have hb5 := h5 _ (goMapGet_mem _ _ _ hv)
        omega
      · exact mapMono_refl _
  · exact ⟨Nat.le_refl _, Nat.le_refl _, mapMono_refl _, mapMono_refl _, mapMono_refl _⟩

theorem C5_counters_monotonic_below_max_witness :
    countersMono (MakeStatsCollector 0).info
      (handleMessage (MakeStatsCollector 0).info
        { MessageType := StatusTypeErrored, StatusType := "db" }).1 :=
  (C5_counters_monotonic_below_max (MakeStatsCollector 0).info
    { MessageType := StatusTypeErrored, StatusType := "db" } 0
    { memAlloc := 0, now := 0, cacheSize := 0, cacheMem := 0 } (by decide)).1

/-- C5 counterexample: the claim as stated fails at the wrap boundary. With
`CacheHits` at the `uint` maximum `2^64 - 1`, one cache-hit event wraps
the counter to 0 — a decrease. -/
theorem C5_wrap_counterexample :
    ¬ countersMono
        { ImgdMem := 0, Uptime := 0, Errored := [], Requested := [],
          APIRequested := [], CacheHits := 2 ^ 64 - 1, CacheMisses := 0,
          CacheSize := 0, CacheMem := 0 }
        (handleMessage
          { ImgdMem := 0, Uptime := 0, Errored := [], Requested := [],
            APIRequested := [], CacheHits := 2 ^ 64 - 1, CacheMisses := 0,
            CacheSize := 0, CacheMem := 0 }
          { MessageType := StatusTypeCacheHit, StatusType := "" }).1 := by
  intro h
  have h1 := h.1
  have hch : (handleMessage
      { ImgdMem := 0, Uptime := 0, Errored := [], Requested := [],
        APIRequested := [], CacheHits := 2 ^ 64 - 1, CacheMisses := 0,
        CacheSize := 0, CacheMem := 0 }
      { MessageType := StatusTypeCacheHit, StatusType := "" }).1.CacheHits = 0 := by
    decide
  rw [hch] at h1
  exact absurd h1 (by decide)

/-- C6: the claim's synchronization does not exist in the code. `ToJSON`
marshals `s.info` on the caller's goroutine with no mediation by the
collector goroutine, so while `Collect` runs its four sequential gauge
stores a concurrent `ToJSON` can observe an intermediate state — here one
mixing the new `ImgdMem` (100) with the stale `Uptime` (0) — which equals
no single point of the aggregator's sequential mutation order. -/
theorem C6_torn_snapshot_observable :
    ∃ mid ∈ collectSteps 0 { memAlloc := 100, now := 50, cacheSize := 7, cacheMem := 9 }
        (MakeStatsCollector 0).info,
      mid ≠ (MakeStatsCollector 0).info ∧
      mid ≠ Collect 0 { memAlloc := 100, now := 50, cacheSize := 7, cacheMem := 9 }
        (MakeStatsCollector 0).info := by
  decide

/-- C7: the input channel has capacity 5; each of the five ingestion
methods enqueues exactly its one event when the queue has room, and when
the queue is saturated the send is not enabled — the caller blocks, with
no drop and no error. -/
theorem C7_bounded_queue_backpressure (q : List statusCollectorMessage) (k : String) :
    inputQueueCapacity = 5 ∧
    (q.length < inputQueueCapacity →
      StatusCollector.Errored q k =
        some (q ++ [{ MessageType := StatusTypeErrored, StatusType := k }]) ∧
      StatusCollector.Requested q k =
        some (q ++ [{ MessageType := StatusTypeRequested, StatusType := k }]) ∧
      StatusCollector.APIRequested q k =
        some (q ++ [{ MessageType := StatusTypeAPIRequested, StatusType := k }]) ∧
      StatusCollector.HitCache q =
        some (q ++ [{ MessageType := StatusTypeCacheHit, StatusType := "" }]) ∧
      StatusCollector.MissCache q =
        some (q ++ [{ MessageType := StatusTypeCacheMiss, StatusType := "" }])) ∧
    (inputQueueCapacity ≤ q.length →
      StatusCollector.Errored q k = none ∧
      StatusCollector.Requested q k = none ∧
      StatusCollector.APIRequested q k = none ∧
      StatusCollector.HitCache q = none ∧
      StatusCollector.MissCache q = none) := by
  refine ⟨rfl, ?_, ?_⟩
  · intro h
    simp [StatusCollector.Errored, StatusCollector.Requested,
      StatusCollector.APIRequested, StatusCollector.HitCache,
      StatusCollector.MissCache, channelSend, h]
  · intro h
    simp [StatusCollector.Errored, StatusCollector.Requested,
      StatusCollector.APIRequested, StatusCollector.HitCache,
      StatusCollector.MissCache, channelSend, Nat.not_lt.mpr h]

theorem C7_bounded_queue_backpressure_witness :
    StatusCollector.HitCache [] =
      some [{ MessageType := StatusTypeCacheHit, StatusType := "" }] ∧
    StatusCollector.Errored
      (List.replicate 5 { MessageType := StatusTypeCacheHit, StatusType := "" }) "x"
      = none :=
  ⟨((C7_bounded_queue_backpressure [] "x").2.1 (by decide)).2.2.2.1,
   ((C7_bounded_queue_backpressure
      (List.replicate 5 { MessageType := StatusTypeCacheHit, StatusType := "" }) "x").2.2
      (by decide)).1⟩

/-- C8: for every state, the serialized snapshot is a JSON object whose
top-level field names are exactly `ImgdMem`, `Uptime`, `Errored`,
`Requested`, `APIRequested`, `CacheHits`, `CacheMisses`, `CacheSize`,
`CacheMem`, in struct declaration order. -/
theorem C8_snapshot_field_names (info : StatusInfo) :
    ∃ fields, infoToJSON info = JValue.obj fields ∧
      fields.map Prod.fst =
        ["ImgdMem", "Uptime", "Errored", "Requested", "APIRequested",
         "CacheHits", "CacheMisses", "CacheSize", "CacheMem"] :=
  ⟨_, rfl, rfl⟩

/-- C9 counterexample: the claim that a serialization failure is surfaced
as an explicit error is false of the code. `ToJSON` is
`results, _ := json.Marshal(s.info); return results`: with a failing
marshal the error is discarded and the empty (nil) byte slice is
returned — exactly the silent empty output the claim forbids. -/
theorem C9_marshal_error_swallowed :
    toJSONWith (fun _ => Except.error "marshal failure") (MakeStatsCollector 0).info
      = [] :=
  rfl

/-- C9 amended: whenever the serializer fails, `ToJSON` discards the error
and returns the nil (empty) byte slice; no failure is surfaced to the
caller. -/
theorem C9_marshal_error_returns_nil
    (marshal : StatusInfo → Except String (List Nat)) (info : StatusInfo)
    (e : String) (h : marshal info = Except.error e) :
    toJSONWith marshal info = [] := by
  simp [toJSONWith, h]

theorem C9_marshal_error_returns_nil_witness :
    toJSONWith (fun _ => Except.error "boom") (MakeStatsCollector 0).info = [] :=
  C9_marshal_error_returns_nil (fun _ => Except.error "boom")
    (MakeStatsCollector 0).info "boom" rfl

/-- C10: a message whose type is none of the five defined event types falls
through the switch: the state is unchanged and no registry increment is
pushed. -/
theorem C10_unknown_message_is_noop (info : StatusInfo)
    (msg : statusCollectorMessage)
    (h0 : msg.MessageType ≠ StatusTypeCacheHit)
    (h1 : msg.MessageType ≠ StatusTypeCacheMiss)
    (h2 : msg.MessageType ≠ StatusTypeRequested)
    (h3 : msg.MessageType ≠ StatusTypeAPIRequested)
    (h4 : msg.MessageType ≠ StatusTypeErrored) :
    handleMessage info msg = (info, []) := by
  unfold handleMessage
  simp [h0, h1, h2, h3, h4]

theorem C10_unknown_message_is_noop_witness :
    handleMessage (MakeStatsCollector 0).info { MessageType := 7, StatusType := "x" } =
      ((MakeStatsCollector 0).info, []) :=
  C10_unknown_message_is_noop (MakeStatsCollector 0).info
    { MessageType := 7, StatusType := "x" }
    (by decide) (by decide) (by decide) (by decide) (by decide)
